import Mathlib

/-!
# Verification of the code-on-rails extraction-and-matching engine

Shallow embedding of the Go sources of `loop-hub/code-on-rails`:

* the match engine (`pkg/matcher`, file `src/unnamed/part_003`):
  `MatchFile`, `shouldTryPattern`, `scoreAgainstReference`,
  `checkErrorHandling`, `compareStructure`, `countNodeTypes`,
  `cosineSimilarity`;
* the pattern extractor (`src/internal/analyzer/analyzer.go`):
  `ExtractPatterns` (its pure per-category core), `inferPatternType`,
  `extractCommonStructure`, `calculateConfidence`, `extractPattern`.

Modelling decisions:

* Go `float64` values are modelled as real numbers (`ℝ`); all the
  constants involved (multiples of 5, 0.8, 0.9, ...) and the algebra on
  them are exact in this idealisation.
* `go/parser.ParseFile` and the `go/ast` walks are external to the
  repository; a parsed file is modelled as a `GoFile` record carrying
  exactly the data the matcher's AST walks extract from it (import
  paths, the result of the `if ... != nil` scan of `checkErrorHandling`,
  and the node-kind histogram of `countNodeTypes`), and the file system
  is a partial map `FS` from paths to parse results (`none` = read or
  parse failure).
* Go maps iterated with `range` have unspecified order; sums over
  `map` keys are modelled as `Finset.sum` over the key set, and
  map-ranged lists are produced in first-appearance order (every
  property proved below is order-independent).
-/

/-! ## Histograms and cosine similarity (`cosineSimilarity`, part_003) -/

/-- A node-kind histogram: the `map[string]int` produced by
`countNodeTypes`, as an association list. Absent keys count 0. -/
abbrev Histogram := List (String × Nat)

/-- Value of key `k` in histogram `h` (Go `a[k]`: 0 when absent). -/
def hval (h : Histogram) (k : String) : Nat :=
  (h.lookup k).getD 0

/-- The set of keys iterated by `cosineSimilarity`: all unique keys of
either histogram (Go builds `keys` as the union of both key sets). -/
def keySet (a b : Histogram) : Finset String :=
  (a.map Prod.fst).toFinset ∪ (b.map Prod.fst).toFinset

/-- Go `dotProduct` accumulated by `cosineSimilarity` over the key union. -/
def dotProduct (a b : Histogram) : ℝ :=
  ∑ k ∈ keySet a b, (hval a k : ℝ) * (hval b k : ℝ)

/-- Go `magA` accumulated by `cosineSimilarity`: `valA * valA` summed. -/
def magA (a b : Histogram) : ℝ :=
  ∑ k ∈ keySet a b, (hval a k : ℝ) * (hval a k : ℝ)

/-- Go `magB` accumulated by `cosineSimilarity`: `valB * valB` summed. -/
def magB (a b : Histogram) : ℝ :=
  ∑ k ∈ keySet a b, (hval b k : ℝ) * (hval b k : ℝ)

/-- Go `cosineSimilarity(a, b)` from part_003: if either magnitude is zero
the result is 0, otherwise `dotProduct / (sqrt(magA) * sqrt(magB))`. -/
noncomputable def cosineSimilarity (a b : Histogram) : ℝ :=
  if magA a b = 0 ∨ magB a b = 0 then 0
  else dotProduct a b / (Real.sqrt (magA a b) * Real.sqrt (magB a b))

/-! ## Parsed files and the file system -/

/-- The data the matcher extracts from one parsed Go file: the import
paths collected by `extractImports`, the Boolean result of the
`checkErrorHandling` AST scan (presence of an `if x != nil` check), and
the node-kind histogram built by `countNodeTypes`. -/
structure GoFile where
  imports : List String
  hasNilCheck : Bool
  histogram : Histogram
deriving DecidableEq, Repr

/-- The file system / parser: `none` models `parser.ParseFile` failing
on that path (unreadable or syntactically invalid file). -/
abbrev FS := String → Option GoFile

/-- Go `checkErrorHandling` from part_003: the AST walk looking for a
conditional `x != nil`; its outcome is carried by the parse result. -/
def checkErrorHandling (f : GoFile) : Bool :=
  f.hasNilCheck

/-- Go `countNodeTypes` from part_003: the node-kind histogram carried by
the parse result. -/
def countNodeTypes (f : GoFile) : Histogram :=
  f.histogram

/-- Go `compareStructure(file1, file2)` from part_003: re-parse both files;
if either parse fails return the fixed default 0.5, otherwise the cosine
similarity of the node-kind histograms. -/
noncomputable def compareStructure (fs : FS) (file1 file2 : String) : ℝ :=
  match fs file1, fs file2 with
  | some f1, some f2 => cosineSimilarity (countNodeTypes f1) (countNodeTypes f2)
  | _, _ => 0.5

/-! ## Deviations (`pkg/patterns`, part_004) -/

/-- Go `patterns.Deviation`; the `Type` and `Severity` enums are Go string
constants and are kept as strings. Unset Go fields are zero values. -/
structure Deviation where
  type : String
  element : String
  expected : String
  actual : String
  severity : String
  suggestion : String
  lineNumber : Int
deriving DecidableEq, Repr

/-- The deviation emitted per missing import in `scoreAgainstReference`. -/
def importDeviation (imp : String) : Deviation :=
  { type := "missing", element := "import", expected := imp, actual := "",
    severity := "warning",
    suggestion := "Consider adding import: " ++ imp, lineNumber := 0 }

/-- The deviation emitted for missing error handling in
`scoreAgainstReference`. -/
def errorHandlingDeviation : Deviation :=
  { type := "missing", element := "error_handling",
    expected := "proper error handling", actual := "",
    severity := "warning",
    suggestion := "Add error handling like reference implementation",
    lineNumber := 0 }

/-- The deviation of the `no_match` terminal result in `MatchFile`. -/
def novelDeviation : Deviation :=
  { type := "novel", element := "file", expected := "", actual := "",
    severity := "warning",
    suggestion := "No matching pattern found. This may be a new pattern.",
    lineNumber := 0 }

/-! ## Scoring (`scoreAgainstReference`, part_003) -/

/-- The import-recall loop of `scoreAgainstReference`: starting from
`score = 100` and no deviations, subtract 5.0 and append one
missing-import deviation for every entry of `refImports` that is not
contained in `fileImports`. -/
def importPhase (fileImports refImports : List String) : ℝ × List Deviation :=
  refImports.foldl
    (fun acc refImport =>
      if fileImports.contains refImport then acc
      else (acc.1 - 5.0, acc.2 ++ [importDeviation refImport]))
    ((100.0 : ℝ), [])

/-- Go `scoreAgainstReference(file, referencePath, filePath)` from
part_003: parse the reference (failure returns the fixed 50.0 with the
empty deviation list); subtract 5.0 per missing import; subtract 10.0
when the reference has error handling and the candidate does not;
multiply by the structural similarity; return `max(0, score)`. -/
noncomputable def scoreAgainstReference (fs : FS) (file : GoFile)
    (referencePath filePath : String) : ℝ × List Deviation :=
  match fs referencePath with
  | none => ((50.0 : ℝ), [])
  | some refFile =>
    let p := importPhase file.imports refFile.imports
    let q :=
      if checkErrorHandling refFile && !checkErrorHandling file then
        (p.1 - 10.0, p.2 ++ [errorHandlingDeviation])
      else p
    let structureSimilarity := compareStructure fs filePath referencePath
    (max 0 (q.1 * structureSimilarity), q.2)

/-! ## Patterns (`pkg/patterns`, part_004) -/

/-- Go `patterns.DetectionRule`. -/
structure DetectionRule where
  filePattern : String := ""
  funcPattern : String := ""
  structPattern : String := ""
  packagePath : String := ""
deriving DecidableEq, Repr

/-- Go `patterns.GoldenExample` (the fields the engine reads). -/
structure GoldenExample where
  path : String
  function : String := ""
  pattern : String := ""
  reason : String := ""
  weight : ℝ

/-- Go `patterns.BlessedExample` (the fields the engine reads). -/
structure BlessedExample where
  path : String
  reason : String := ""
  weight : ℝ

/-- Go `patterns.Example` (a discovered-tier reference). -/
structure Example where
  path : String
  similarityScore : ℝ
  seenCount : Nat := 0
  weight : ℝ

/-- Go `patterns.AntiPattern` (the fields the analyzer reads). -/
structure AntiPattern where
  path : String
  pattern : String := ""
  reason : String := ""

/-- Go `patterns.StructureElement`. -/
structure StructureElement where
  name : String
  type : String
  pattern : String
  examples : List String := []
deriving DecidableEq, Repr

/-- Go `patterns.CodeStructure`. -/
structure CodeStructure where
  elements : List StructureElement := []
  ordering : List String := []
  required : List String := []
  optional : List String := []
deriving DecidableEq, Repr

/-- Go `patterns.Pattern` (`Type` is the `PatternType` string). -/
structure Pattern where
  id : String := ""
  name : String := ""
  type : String := ""
  version : String := ""
  detection : DetectionRule := {}
  Structure : CodeStructure := {}
  annotatedGolden : List GoldenExample := []
  configBlessed : List BlessedExample := []
  discovered : List Example := []
  antiPatterns : List AntiPattern := []
  confidence : ℝ := 0
  seenCount : Nat := 0

/-- Go `patterns.PatternMatch`; the Go nilable pointers are `Option`s. -/
structure PatternMatch where
  pattern : Option Pattern
  filePath : String
  score : ℝ
  weightedScore : ℝ
  matchType : String
  goldenRef : Option GoldenExample
  blessedRef : Option BlessedExample
  discoveredRef : Option Example
  deviations : List Deviation
  autoApprove : Bool

/-- Go `matcher.Matcher`. -/
structure Matcher where
  patterns : List Pattern
  threshold : ℝ

/-! ## Pattern pre-filter (`shouldTryPattern`, part_003) -/

/-- Substring test (Go `strings.Contains haystack needle`). -/
def containsSub (haystack needle : String) : Bool :=
  decide (List.IsInfix needle.toList haystack.toList)

/-- Go `strings.ReplaceAll(s, "*", "")`. -/
def stripStars (s : String) : String :=
  ⟨s.toList.filter (fun c => c ≠ '*')⟩

/-- Go `shouldTryPattern` from part_003: a non-empty `FilePattern` or
`PackagePath` whose star-stripped text is not a substring of the file
path rejects the pattern; otherwise the pattern is tried. -/
def shouldTryPattern (filePath : String) (p : Pattern) : Bool :=
  if p.detection.filePattern ≠ "" &&
      !containsSub filePath (stripStars p.detection.filePattern) then
    false
  else if p.detection.packagePath ≠ "" &&
      !containsSub filePath (stripStars p.detection.packagePath) then
    false
  else
    true

/-! ## The match loop (`MatchFile`, part_003) -/

/-- The `PatternMatch` built in the annotated-golden branch of
`MatchFile` for one `(pattern, golden)` comparison. -/
noncomputable def mkGoldenMatch (fs : FS) (file : GoFile) (filePath : String)
    (threshold : ℝ) (p : Pattern) (golden : GoldenExample) : PatternMatch :=
  let sd := scoreAgainstReference fs file golden.path filePath
  { pattern := some p, filePath := filePath, score := sd.1,
    weightedScore := sd.1 * golden.weight, matchType := "annotated_golden",
    goldenRef := some golden, blessedRef := none, discoveredRef := none,
    deviations := sd.2, autoApprove := decide (threshold ≤ sd.1) }

/-- The `PatternMatch` built in the config-blessed branch of
`MatchFile`. -/
noncomputable def mkBlessedMatch (fs : FS) (file : GoFile) (filePath : String)
    (threshold : ℝ) (p : Pattern) (blessed : BlessedExample) : PatternMatch :=
  let sd := scoreAgainstReference fs file blessed.path filePath
  { pattern := some p, filePath := filePath, score := sd.1,
    weightedScore := sd.1 * blessed.weight, matchType := "config_blessed",
    goldenRef := none, blessedRef := some blessed, discoveredRef := none,
    deviations := sd.2, autoApprove := decide (threshold ≤ sd.1) }

/-- The `PatternMatch` built in the discovered branch of `MatchFile`. -/
noncomputable def mkDiscoveredMatch (fs : FS) (file : GoFile) (filePath : String)
    (threshold : ℝ) (p : Pattern) (discovered : Example) : PatternMatch :=
  let sd := scoreAgainstReference fs file discovered.path filePath
  { pattern := some p, filePath := filePath, score := sd.1,
    weightedScore := sd.1 * discovered.weight, matchType := "discovered",
    goldenRef := none, blessedRef := none, discoveredRef := some discovered,
    deviations := sd.2, autoApprove := decide (threshold ≤ sd.1) }

/-- The best-match update of `MatchFile`: replace the running
`(bestScore, bestMatch)` only when the new weighted score is strictly
greater. -/
noncomputable def updateBest (st : ℝ × Option PatternMatch)
    (cand : PatternMatch) : ℝ × Option PatternMatch :=
  if cand.weightedScore > st.1 then (cand.weightedScore, some cand) else st

/-- The per-pattern body of `MatchFile`'s loop: try the annotated-golden
tier, then the config-blessed tier, then the discovered tier, in
declaration order, updating the running best. -/
noncomputable def tryPattern (fs : FS) (file : GoFile) (filePath : String)
    (threshold : ℝ) (st : ℝ × Option PatternMatch) (p : Pattern) :
    ℝ × Option PatternMatch :=
  let st1 := p.annotatedGolden.foldl
    (fun st golden => updateBest st (mkGoldenMatch fs file filePath threshold p golden)) st
  let st2 := p.configBlessed.foldl
    (fun st blessed => updateBest st (mkBlessedMatch fs file filePath threshold p blessed)) st1
  p.discovered.foldl
    (fun st discovered => updateBest st (mkDiscoveredMatch fs file filePath threshold p discovered)) st2

/-- The `no_match` terminal result of `MatchFile` (all unset Go fields
are zero values). -/
def noMatchResult (filePath : String) : PatternMatch :=
  { pattern := none, filePath := filePath, score := 0, weightedScore := 0,
    matchType := "no_match", goldenRef := none, blessedRef := none,
    discoveredRef := none, deviations := [novelDeviation],
    autoApprove := false }

/-- Go `MatchFile` from part_003: parse the candidate (failure fails the
call); scan every pattern passing `shouldTryPattern`, tier by tier,
keeping a single running best across all comparisons (initial best
score 0.0, replaced only on strictly greater weighted score); return the
best match, or the `no_match` terminal result when none was recorded. -/
noncomputable def MatchFile (m : Matcher) (fs : FS) (filePath : String) :
    Option PatternMatch :=
  match fs filePath with
  | none => none
  | some file =>
    let final := m.patterns.foldl
      (fun st p =>
        if shouldTryPattern filePath p then
          tryPattern fs file filePath m.threshold st p
        else st)
      ((0.0 : ℝ), (none : Option PatternMatch))
    match final.2 with
    | none => some (noMatchResult filePath)
    | some bestMatch => some bestMatch

/-- The comparisons evaluated by one surviving pattern, in the tier and
declaration order `MatchFile` iterates them. -/
noncomputable def tierCandidates (fs : FS) (file : GoFile) (filePath : String)
    (threshold : ℝ) (p : Pattern) : List PatternMatch :=
  p.annotatedGolden.map (mkGoldenMatch fs file filePath threshold p) ++
  p.configBlessed.map (mkBlessedMatch fs file filePath threshold p) ++
  p.discovered.map (mkDiscoveredMatch fs file filePath threshold p)

/-- All `(pattern, tier, reference)` comparisons evaluated by
`MatchFile`, in iteration order (pre-filtered patterns contribute
none). -/
noncomputable def allCandidates (m : Matcher) (fs : FS) (filePath : String)
    (file : GoFile) : List PatternMatch :=
  m.patterns.flatMap
    (fun p =>
      if shouldTryPattern filePath p then
        tierCandidates fs file filePath m.threshold p
      else [])

/-! ## The analyzer (`internal/analyzer/analyzer.go`) -/

/-- Go `patterns.FunctionInfo` (the fields the analyzer reads). -/
structure FunctionInfo where
  name : String
  receiver : String := ""
deriving DecidableEq, Repr

/-- Go `patterns.TypeInfo`. -/
structure TypeInfo where
  name : String
  kind : String := ""
  fields : List String := []
deriving DecidableEq, Repr

/-- Go `patterns.FileInfo`: one parsed file on the learning path (`pkg` is
the Go field `Package`). -/
structure FileInfo where
  path : String
  pkg : String := ""
  imports : List String := []
  functions : List FunctionInfo := []
  types : List TypeInfo := []
deriving DecidableEq, Repr

/-- Go `inferFromPackageName` from analyzer.go: the fixed package-name
vocabulary (`PatternType` constants are their Go string values). -/
def inferFromPackageName (pkgName : String) : String :=
  match pkgName with
  | "analyzer" | "parser" | "scanner" | "lexer" => "service"
  | "config" | "configuration" | "settings" => "util"
  | "detector" | "finder" | "locator" | "discovery" => "service"
  | "matcher" | "comparator" | "validator" => "service"
  | "reporter" | "writer" | "output" | "formatter" => "service"
  | "handler" | "handlers" | "controller" | "controllers" => "http_handler"
  | "service" | "services" => "service"
  | "repository" | "repositories" | "repo" | "repos" | "store" | "storage" => "repository"
  | "middleware" | "middlewares" => "middleware"
  | "model" | "models" | "entity" | "entities" | "domain" => "model"
  | _ => "util"

/-- The function-signature loop of `inferPatternType`: the first
function whose name has a `Handler` or `Middleware` suffix decides. -/
def classifyByFunctions : List FunctionInfo → Option String
  | [] => none
  | fn :: rest =>
    if fn.name.endsWith "Handler" then some "http_handler"
    else if fn.name.endsWith "Middleware" then some "middleware"
    else classifyByFunctions rest

/-- The type loop of `inferPatternType`: the first type whose name has a
`Service` or `Repository` suffix decides. -/
def classifyByTypes : List TypeInfo → Option String
  | [] => none
  | typ :: rest =>
    if typ.name.endsWith "Service" then some "service"
    else if typ.name.endsWith "Repository" then some "repository"
    else classifyByTypes rest

/-- Go `inferPatternType` from analyzer.go: path-segment rules, then the
function-suffix loop, then the type-suffix loop, then the package-name
vocabulary, defaulting to `util`. -/
def inferPatternType (file : FileInfo) : String :=
  if containsSub file.path "/handlers/" || containsSub file.path "/controllers/" then
    "http_handler"
  else if containsSub file.path "/services/" then "service"
  else if containsSub file.path "/repository/" || containsSub file.path "/repositories/" then
    "repository"
  else if containsSub file.path "/middleware/" then "middleware"
  else if containsSub file.path "/models/" then "model"
  else
    match classifyByFunctions file.functions with
    | some t => t
    | none =>
      match classifyByTypes file.types with
      | some t => t
      | none =>
        let pkgPatternType := inferFromPackageName file.pkg
        if pkgPatternType ≠ "util" then pkgPatternType else "util"

/-- The group `groupByStructure` builds for one category: the files
inferring that category, in scan order. -/
def groupOf (files : List FileInfo) (c : String) : List FileInfo :=
  files.filter (fun f => inferPatternType f = c)

/-- The categories present in `groupByStructure`'s map (Go iterates
them in unspecified order; first-appearance order is used here). -/
def categoriesOf (files : List FileInfo) : List String :=
  (files.map inferPatternType).dedup

/-- The characters `regexp.QuoteMeta` escapes. -/
def isRegexSpecial (c : Char) : Bool :=
  c ∈ ['\\', '.', '+', '*', '?', '(', ')', '|', '[', ']', '\x7b', '\x7d', '^', '$']

/-- Go `regexp.QuoteMeta`: prefix every regex metacharacter with a
backslash. -/
def quoteMeta (s : String) : String :=
  ⟨s.toList.flatMap (fun c => if isRegexSpecial c then ['\\', c] else [c])⟩

/-- The threshold `int(float64(len(group)) * 0.8)` of
`extractCommonStructure`: truncation of `0.8 * n`, i.e. `⌊4n/5⌋`. -/
def requiredThreshold (n : Nat) : Nat :=
  4 * n / 5

/-- The multiset of imports of a group: `importCounts` in
`extractCommonStructure` counts every occurrence across every
file's import list. -/
def groupImports (group : List FileInfo) : List String :=
  group.flatMap (fun file => file.imports)

/-- The occurrence count of one import across the group. -/
def importCount (group : List FileInfo) (imp : String) : Nat :=
  (groupImports group).count imp

/-- Go `extractCommonStructure` from analyzer.go: an import whose count
reaches `int(0.8 * len(group))` is appended to `Required` and becomes a
literal-match (`regexp.QuoteMeta`) import element. The Go map over the
counted imports is iterated here in first-appearance order. -/
def extractCommonStructure (group : List FileInfo) : CodeStructure :=
  let requiredImports := (groupImports group).dedup.filter
    (fun imp => requiredThreshold group.length ≤ importCount group imp)
  { elements := requiredImports.map
      (fun imp => { name := imp, type := "import", pattern := quoteMeta imp }),
    ordering := [], required := requiredImports, optional := [] }

/-- Go `calculateConfidence` from analyzer.go: the step function of the
group size. -/
def calculateConfidence (group : List FileInfo) : ℝ :=
  if 10 ≤ group.length then 0.9
  else if 5 ≤ group.length then 0.75
  else if 3 ≤ group.length then 0.6
  else 0.5

/-- The per-category detection rules of `extractPattern`. -/
def detectionFor (patternType : String) : DetectionRule :=
  match patternType with
  | "http_handler" =>
    { filePattern := "*_handler.go",
      funcPattern := "func.*Handler.*http\\.ResponseWriter",
      packagePath := "*/handlers" }
  | "service" =>
    { filePattern := "*_service.go",
      structPattern := "type.*Service.*struct",
      packagePath := "*/services" }
  | "repository" =>
    { filePattern := "*_repo.go",
      structPattern := "type.*Repository.*interface",
      packagePath := "*/repository" }
  | _ => {}

/-- Go `extractPattern` from analyzer.go: the base pattern built from one
group (`generatePatternID` inlined as its format string). -/
def extractPattern (patternType : String) (group : List FileInfo) : Pattern :=
  { id := patternType ++ "_pattern", name := patternType, type := patternType,
    confidence := calculateConfidence group, seenCount := group.length,
    version := "1.0", detection := detectionFor patternType,
    Structure := extractCommonStructure group }

/-- The loop body of `ExtractPatterns` from analyzer.go for one
category: skip the category when its group has fewer than 3 members and
no golden example exists for it; otherwise build the pattern, attach the
category's golden examples and anti-patterns, and turn every non-golden
group member into a discovered example (weight 1.0, placeholder
similarity 0.9). -/
def buildPatternFor (files : List FileInfo)
    (goldenExamples : List GoldenExample)
    (antiPatternList : List AntiPattern) (patternType : String) : Option Pattern :=
  let group := groupOf files patternType
  let goldens := goldenExamples.filter (fun g => g.pattern = patternType)
  if group.length < 3 ∧ goldens.isEmpty then none
  else
    let base := extractPattern patternType group
    some { base with
      annotatedGolden := goldens,
      antiPatterns := antiPatternList.filter (fun a => a.pattern = patternType),
      discovered := group.filterMap
        (fun file =>
          if goldens.any (fun golden => golden.path = file.path) then none
          else some { path := file.path, similarityScore := 0.9, weight := 1.0 }) }

/-- The pure per-category core of `ExtractPatterns` from analyzer.go:
group the parsed files by inferred category and run the loop body on
every category. Categories are emitted in first-appearance order (the
Go map range order is unspecified). -/
def ExtractPatternsCore (files : List FileInfo)
    (goldenExamples : List GoldenExample)
    (antiPatternList : List AntiPattern) : List Pattern :=
  (categoriesOf files).filterMap (buildPatternFor files goldenExamples antiPatternList)

/-! ## Helper lemmas: the import-recall loop -/

/-- The reference imports the candidate misses, in reference
declaration order. -/
def missedImports (fileImports refImports : List String) : List String :=
  refImports.filter (fun refImport => !fileImports.contains refImport)

theorem importPhase_fold (fileImports refImports : List String)
    (s : ℝ) (ds : List Deviation) :
    refImports.foldl
      (fun acc refImport =>
        if fileImports.contains refImport then acc
        else (acc.1 - 5.0, acc.2 ++ [importDeviation refImport]))
      (s, ds) =
    (s - 5.0 * (missedImports fileImports refImports).length,
      ds ++ (missedImports fileImports refImports).map importDeviation) := by
  induction refImports generalizing s ds with
  | nil => simp [missedImports]
  | cons i t ih =>
    simp only [List.foldl_cons]
    by_cases hi : fileImports.contains i
    · rw [if_pos hi, ih]
      have hi' : i ∈ fileImports := by simpa using hi
      have hm : missedImports fileImports (i :: t) = missedImports fileImports t := by
        simp [missedImports, hi']
      rw [hm]
    · rw [if_neg hi, ih]
      have hi' : i ∉ fileImports := by simpa using hi
      have hm : missedImports fileImports (i :: t) = i :: missedImports fileImports t := by
        simp [missedImports, hi']
      rw [hm]
      simp only [Prod.mk.injEq, List.length_cons, List.map_cons]
      refine ⟨by push_cast; ring, by simp⟩

theorem importPhase_eq (fileImports refImports : List String) :
    importPhase fileImports refImports =
    ((100.0 : ℝ) - 5.0 * ((missedImports fileImports refImports).length : ℝ),
      (missedImports fileImports refImports).map importDeviation) := by
  have h := importPhase_fold fileImports refImports 100.0 []
  unfold importPhase
  rw [h]
  simp

theorem importPhase_fst_le (fileImports refImports : List String) :
    (importPhase fileImports refImports).1 ≤ 100 := by
  rw [importPhase_eq]
  have h : (0 : ℝ) ≤ 5.0 * ((missedImports fileImports refImports).length : ℝ) := by
    positivity
  simp only []
  linarith

/-! ## Helper lemmas: cosine similarity -/

theorem dotProduct_nonneg (a b : Histogram) : 0 ≤ dotProduct a b := by
  refine Finset.sum_nonneg fun k _ => ?_
  positivity

theorem magA_nonneg (a b : Histogram) : 0 ≤ magA a b := by
  refine Finset.sum_nonneg fun k _ => ?_
  positivity

theorem magB_nonneg (a b : Histogram) : 0 ≤ magB a b := by
  refine Finset.sum_nonneg fun k _ => ?_
  positivity

/-- Cauchy-Schwarz for the histogram sums. -/
theorem dotProduct_le_sqrt_mul_sqrt (a b : Histogram) :
    dotProduct a b ≤ Real.sqrt (magA a b) * Real.sqrt (magB a b) := by
  have h := Real.sum_mul_le_sqrt_mul_sqrt (keySet a b)
    (fun k => (hval a k : ℝ)) (fun k => (hval b k : ℝ))
  have ha : magA a b = ∑ k ∈ keySet a b, ((hval a k : ℝ)) ^ 2 := by
    unfold magA
    congr 1
    funext k
    ring
  have hb : magB a b = ∑ k ∈ keySet a b, ((hval b k : ℝ)) ^ 2 := by
    unfold magB
    congr 1
    funext k
    ring
  rw [dotProduct, ha, hb]
  exact h

theorem cosineSimilarity_nonneg (a b : Histogram) : 0 ≤ cosineSimilarity a b := by
  unfold cosineSimilarity
  split
  · exact le_refl 0
  · exact div_nonneg (dotProduct_nonneg a b)
      (mul_nonneg (Real.sqrt_nonneg _) (Real.sqrt_nonneg _))

theorem cosineSimilarity_le_one (a b : Histogram) : cosineSimilarity a b ≤ 1 := by
  unfold cosineSimilarity
  split
  · norm_num
  · next h =>
    push_neg at h
    have hA : 0 < magA a b := lt_of_le_of_ne (magA_nonneg a b) (Ne.symm h.1)
    have hB : 0 < magB a b := lt_of_le_of_ne (magB_nonneg a b) (Ne.symm h.2)
    have hden : 0 < Real.sqrt (magA a b) * Real.sqrt (magB a b) :=
      mul_pos (Real.sqrt_pos.mpr hA) (Real.sqrt_pos.mpr hB)
    exact (div_le_one hden).mpr (dotProduct_le_sqrt_mul_sqrt a b)

/-! ## Helper lemmas: score bounds -/

theorem compareStructure_nonneg (fs : FS) (f1 f2 : String) :
    0 ≤ compareStructure fs f1 f2 := by
  unfold compareStructure
  cases fs f1 with
  | none => norm_num
  | some a =>
    cases fs f2 with
    | none => norm_num
    | some b => exact cosineSimilarity_nonneg _ _

theorem compareStructure_le_one (fs : FS) (f1 f2 : String) :
    compareStructure fs f1 f2 ≤ 1 := by
  unfold compareStructure
  cases fs f1 with
  | none => norm_num
  | some a =>
    cases fs f2 with
    | none => norm_num
    | some b => exact cosineSimilarity_le_one _ _

theorem scoreAgainstReference_nonneg (fs : FS) (file : GoFile)
    (referencePath filePath : String) :
    0 ≤ (scoreAgainstReference fs file referencePath filePath).1 := by
  unfold scoreAgainstReference
  cases fs referencePath with
  | none => norm_num
  | some refFile => exact le_max_left 0 _

theorem scoreAgainstReference_le_100 (fs : FS) (file : GoFile)
    (referencePath filePath : String) :
    (scoreAgainstReference fs file referencePath filePath).1 ≤ 100 := by
  unfold scoreAgainstReference
  cases fs referencePath with
  | none => norm_num
  | some refFile =>
    simp only []
    have hq : (if checkErrorHandling refFile && !checkErrorHandling file then
        ((importPhase file.imports refFile.imports).1 - 10.0,
          (importPhase file.imports refFile.imports).2 ++ [errorHandlingDeviation])
      else importPhase file.imports refFile.imports).1 ≤ 100 := by
      split
      · have h := importPhase_fst_le file.imports refFile.imports
        simp only []
        linarith
      · exact importPhase_fst_le file.imports refFile.imports
    set q1 := (if checkErrorHandling refFile && !checkErrorHandling file then
        ((importPhase file.imports refFile.imports).1 - 10.0,
          (importPhase file.imports refFile.imports).2 ++ [errorHandlingDeviation])
      else importPhase file.imports refFile.imports).1 with hq1
    have hs0 := compareStructure_nonneg fs filePath referencePath
    have hs1 := compareStructure_le_one fs filePath referencePath
    refine max_le (by norm_num) ?_
    rcases le_or_lt 0 q1 with hq0 | hq0
    · calc q1 * compareStructure fs filePath referencePath ≤ q1 * 1 :=
        mul_le_mul_of_nonneg_left hs1 hq0
      _ = q1 := mul_one q1
      _ ≤ 100 := hq
    · have hneg : q1 * compareStructure fs filePath referencePath ≤ 0 :=
        mul_nonpos_of_nonpos_of_nonneg hq0.le hs0
      linarith

/-! ## Helper lemmas: the best-match fold -/

theorem tryPattern_eq_foldl (fs : FS) (file : GoFile) (filePath : String)
    (threshold : ℝ) (st : ℝ × Option PatternMatch) (p : Pattern) :
    tryPattern fs file filePath threshold st p =
    (tierCandidates fs file filePath threshold p).foldl updateBest st := by
  unfold tryPattern tierCandidates
  rw [List.foldl_append, List.foldl_append, List.foldl_map, List.foldl_map, List.foldl_map]

theorem patterns_fold_eq_foldl (fs : FS) (file : GoFile) (filePath : String)
    (threshold : ℝ) (ps : List Pattern) :
    ∀ init : ℝ × Option PatternMatch,
      ps.foldl
        (fun st p =>
          if shouldTryPattern filePath p then
            tryPattern fs file filePath threshold st p
          else st)
        init =
      (ps.flatMap
        (fun p =>
          if shouldTryPattern filePath p then
            tierCandidates fs file filePath threshold p
          else [])).foldl updateBest init := by
  induction ps with
  | nil => intro init; rfl
  | cons p t ih =>
    intro init
    simp only [List.foldl_cons, List.flatMap_cons, List.foldl_append]
    by_cases hp : shouldTryPattern filePath p
    · rw [if_pos hp, if_pos hp, ih, tryPattern_eq_foldl]
    · rw [if_neg hp, if_neg hp, ih]
      rfl

theorem MatchFile_eq_none (m : Matcher) (fs : FS) (filePath : String) (file : GoFile)
    (hf : fs filePath = some file)
    (h : ((allCandidates m fs filePath file).foldl updateBest
        ((0.0 : ℝ), (none : Option PatternMatch))).2 = none) :
    MatchFile m fs filePath = some (noMatchResult filePath) := by
  unfold MatchFile
  rw [hf]
  simp only [patterns_fold_eq_foldl]
  rw [show (m.patterns.flatMap fun p =>
      if shouldTryPattern filePath p then tierCandidates fs file filePath m.threshold p
      else []) = allCandidates m fs filePath file from rfl]
  rw [h]

theorem MatchFile_eq_some (m : Matcher) (fs : FS) (filePath : String) (file : GoFile)
    (bm : PatternMatch) (hf : fs filePath = some file)
    (h : ((allCandidates m fs filePath file).foldl updateBest
        ((0.0 : ℝ), (none : Option PatternMatch))).2 = some bm) :
    MatchFile m fs filePath = some bm := by
  unfold MatchFile
  rw [hf]
  simp only [patterns_fold_eq_foldl]
  rw [show (m.patterns.flatMap fun p =>
      if shouldTryPattern filePath p then tierCandidates fs file filePath m.threshold p
      else []) = allCandidates m fs filePath file from rfl]
  rw [h]

theorem foldl_updateBest_id (l : List PatternMatch) (s : ℝ) (b : Option PatternMatch)
    (h : ∀ c ∈ l, c.weightedScore ≤ s) :
    l.foldl updateBest (s, b) = (s, b) := by
  induction l with
  | nil => rfl
  | cons c t ih =>
    have hc : ¬ c.weightedScore > s := not_lt.mpr (h c (List.mem_cons_self c t))
    simp only [List.foldl_cons, updateBest, if_neg hc]
    exact ih fun x hx => h x (List.mem_cons_of_mem c hx)

/-- The best-match fold is a first-writer-wins arg-max: either nothing
beat the initial score and the state is unchanged, or the final best is
the earliest candidate attaining the (strictly positive relative to the
initial score) maximum weighted score. -/
theorem foldl_updateBest_spec (l : List PatternMatch) :
    ∀ (s : ℝ) (b : Option PatternMatch),
      (l.foldl updateBest (s, b) = (s, b) ∧ ∀ c ∈ l, c.weightedScore ≤ s) ∨
      (∃ l₁ r l₂, l = l₁ ++ r :: l₂ ∧
        l.foldl updateBest (s, b) = (r.weightedScore, some r) ∧
        s < r.weightedScore ∧
        (∀ c ∈ l₁, c.weightedScore < r.weightedScore) ∧
        (∀ c ∈ l₂, c.weightedScore ≤ r.weightedScore)) := by
  induction l with
  | nil =>
    intro s b
    left
    exact ⟨rfl, by simp⟩
  | cons c t ih =>
    intro s b
    simp only [List.foldl_cons]
    by_cases hc : c.weightedScore > s
    · rw [show updateBest (s, b) c = (c.weightedScore, some c) from if_pos hc]
      rcases ih c.weightedScore (some c) with ⟨heq, hle⟩ | ⟨l₁, r, l₂, hdec, heq, hlt, h₁, h₂⟩
      · right
        exact ⟨[], c, t, by simp, heq, hc, by simp, hle⟩
      · right
        refine ⟨c :: l₁, r, l₂, by rw [hdec]; rfl, heq, lt_trans hc hlt, ?_, h₂⟩
        intro x hx
        rcases List.mem_cons.mp hx with hx | hx
        · rw [hx]; exact hlt
        · exact h₁ x hx
    · rw [show updateBest (s, b) c = (s, b) from if_neg hc]
      rcases ih s b with ⟨heq, hle⟩ | ⟨l₁, r, l₂, hdec, heq, hlt, h₁, h₂⟩
      · left
        refine ⟨heq, fun x hx => ?_⟩
        rcases List.mem_cons.mp hx with hx | hx
        · rw [hx]; exact not_lt.mp hc
        · exact hle x hx
      · right
        refine ⟨c :: l₁, r, l₂, by rw [hdec]; rfl, heq, hlt, ?_, h₂⟩
        intro x hx
        rcases List.mem_cons.mp hx with hx | hx
        · rw [hx]; exact lt_of_le_of_lt (not_lt.mp hc) hlt
        · exact h₁ x hx

/-! ## Helper lemmas: facts about every evaluated comparison -/

theorem tierCandidates_mem {fs : FS} {file : GoFile} {filePath : String}
    {threshold : ℝ} {p : Pattern} {c : PatternMatch}
    (h : c ∈ tierCandidates fs file filePath threshold p) :
    (∃ golden ∈ p.annotatedGolden,
        c = mkGoldenMatch fs file filePath threshold p golden) ∨
    (∃ blessed ∈ p.configBlessed,
        c = mkBlessedMatch fs file filePath threshold p blessed) ∨
    (∃ discovered ∈ p.discovered,
        c = mkDiscoveredMatch fs file filePath threshold p discovered) := by
  simp only [tierCandidates, List.mem_append, List.mem_map] at h
  rcases h with (⟨g, hg, hc⟩ | ⟨bl, hb, hc⟩) | ⟨d, hd, hc⟩
  · exact Or.inl ⟨g, hg, hc.symm⟩
  · exact Or.inr (Or.inl ⟨bl, hb, hc.symm⟩)
  · exact Or.inr (Or.inr ⟨d, hd, hc.symm⟩)

theorem tierCandidates_autoApprove {fs : FS} {file : GoFile} {filePath : String}
    {threshold : ℝ} {p : Pattern} {c : PatternMatch}
    (h : c ∈ tierCandidates fs file filePath threshold p) :
    c.autoApprove = decide (threshold ≤ c.score) := by
  rcases tierCandidates_mem h with ⟨g, _, hc⟩ | ⟨bl, _, hc⟩ | ⟨d, _, hc⟩ <;>
    (subst hc; rfl)

theorem allCandidates_autoApprove {m : Matcher} {fs : FS} {filePath : String}
    {file : GoFile} {c : PatternMatch}
    (h : c ∈ allCandidates m fs filePath file) :
    c.autoApprove = decide (m.threshold ≤ c.score) := by
  simp only [allCandidates, List.mem_flatMap] at h
  rcases h with ⟨p, _, hc⟩
  by_cases hp : shouldTryPattern filePath p
  · rw [if_pos hp] at hc
    exact tierCandidates_autoApprove hc
  · rw [if_neg hp] at hc
    exact absurd hc (List.not_mem_nil c)

/-- Unfolding of `scoreAgainstReference` on a parseable reference. -/
theorem scoreAgainstReference_some (fs : FS) (file refFile : GoFile)
    (referencePath filePath : String) (h : fs referencePath = some refFile) :
    scoreAgainstReference fs file referencePath filePath =
    (max 0
      ((if checkErrorHandling refFile && !checkErrorHandling file then
          (importPhase file.imports refFile.imports).1 - 10.0
        else (importPhase file.imports refFile.imports).1) *
        compareStructure fs filePath referencePath),
      (importPhase file.imports refFile.imports).2 ++
        (if checkErrorHandling refFile && !checkErrorHandling file then
          [errorHandlingDeviation]
        else [])) := by
  unfold scoreAgainstReference
  rw [h]
  by_cases hc : checkErrorHandling refFile && !checkErrorHandling file
  · simp only [hc, if_true]
  · simp only [hc, if_false, Bool.false_eq_true, List.append_nil]

theorem foldl_updateBest_mem (l : List PatternMatch) (bm : PatternMatch)
    (h : (l.foldl updateBest ((0.0 : ℝ), (none : Option PatternMatch))).2 = some bm) :
    bm ∈ l ∧ 0 < bm.weightedScore := by
  rcases foldl_updateBest_spec l 0.0 none with ⟨heq, _⟩ | ⟨l₁, r, l₂, hdec, heq, hlt, _, _⟩
  · rw [heq] at h
    exact absurd h (by simp)
  · rw [heq] at h
    have hr : r = bm := by simpa using h
    subst hr
    exact ⟨by rw [hdec]; simp, by linarith⟩

/-- Inversion of a successful `MatchFile` call: the result is either the
terminal no-match value, or the recorded best comparison. -/
theorem MatchFile_inv (m : Matcher) (fs : FS) (filePath : String) (file : GoFile)
    (res : PatternMatch) (hf : fs filePath = some file)
    (h : MatchFile m fs filePath = some res) :
    (res = noMatchResult filePath ∧
      ((allCandidates m fs filePath file).foldl updateBest
        ((0.0 : ℝ), (none : Option PatternMatch))).2 = none) ∨
    ((allCandidates m fs filePath file).foldl updateBest
        ((0.0 : ℝ), (none : Option PatternMatch))).2 = some res := by
  cases hfin : ((allCandidates m fs filePath file).foldl updateBest
      ((0.0 : ℝ), (none : Option PatternMatch))).2 with
  | none =>
    left
    have := MatchFile_eq_none m fs filePath file hf hfin
    rw [this] at h
    exact ⟨(Option.some.injEq _ _ ▸ h).symm ▸ rfl, rfl⟩
  | some bm =>
    right
    have := MatchFile_eq_some m fs filePath file bm hf hfin
    rw [this] at h
    rw [Option.some.injEq] at h
    rw [h]

/-! ## Claims -/

/-- C3: `MatchFile` fails exactly when the candidate itself fails to
parse; a reference that fails to parse degrades that one comparison to
the fixed fallback `(50.0, no deviations)` instead of aborting the
call. -/
theorem C3_parse_failure_semantics :
    (∀ (m : Matcher) (fs : FS) (filePath : String),
      MatchFile m fs filePath = none ↔ fs filePath = none) ∧
    (∀ (fs : FS) (file : GoFile) (referencePath filePath : String),
      fs referencePath = none →
      scoreAgainstReference fs file referencePath filePath =
        ((50.0 : ℝ), ([] : List Deviation))) := by
  constructor
  · intro m fs filePath
    constructor
    · intro h
      cases hf : fs filePath with
      | none => rfl
      | some file =>
        exfalso
        cases hfin : ((allCandidates m fs filePath file).foldl updateBest
            ((0.0 : ℝ), (none : Option PatternMatch))).2 with
        | none =>
          rw [MatchFile_eq_none m fs filePath file hf hfin] at h
          exact Option.noConfusion h
        | some bm =>
          rw [MatchFile_eq_some m fs filePath file bm hf hfin] at h
          exact Option.noConfusion h
    · intro h
      unfold MatchFile
      rw [h]
  · intro fs file referencePath filePath h
    unfold scoreAgainstReference
    rw [h]

/-- Witness for C3 at a concrete matcher, file system and candidate. -/
theorem C3_parse_failure_semantics_witness :
    MatchFile ⟨[], 95.0⟩ (fun _ => none) "a.go" = none ∧
    scoreAgainstReference (fun _ => none) ⟨["fmt"], true, [("a", 1)]⟩ "r.go" "a.go" =
      ((50.0 : ℝ), ([] : List Deviation)) :=
  ⟨(C3_parse_failure_semantics.1 ⟨[], 95.0⟩ (fun _ => none) "a.go").mpr rfl,
    C3_parse_failure_semantics.2 (fun _ => none) ⟨["fmt"], true, [("a", 1)]⟩ "r.go" "a.go" rfl⟩

/-- C4: an empty pattern set — and, more generally, a pattern set that
is entirely pre-filtered by `shouldTryPattern` — yields, for any
parseable candidate, the terminal result: null pattern, score 0, exactly
one `novel`/`warning` deviation, `autoApprove = false`. -/
theorem C4_no_match_terminal :
    ∀ (m : Matcher) (fs : FS) (filePath : String) (file : GoFile),
      fs filePath = some file →
      (m.patterns = [] ∨ ∀ p ∈ m.patterns, shouldTryPattern filePath p = false) →
      MatchFile m fs filePath = some (noMatchResult filePath) ∧
      (noMatchResult filePath).pattern = none ∧
      (noMatchResult filePath).score = 0 ∧
      (noMatchResult filePath).deviations = [novelDeviation] ∧
      novelDeviation.type = "novel" ∧
      novelDeviation.severity = "warning" ∧
      (noMatchResult filePath).autoApprove = false := by
  intro m fs filePath file hf hp
  have hgen : ∀ ps : List Pattern, (∀ p ∈ ps, shouldTryPattern filePath p = false) →
      (ps.flatMap fun p =>
        if shouldTryPattern filePath p then
          tierCandidates fs file filePath m.threshold p
        else []) = [] := by
    intro ps hps
    induction ps with
    | nil => rfl
    | cons p t ih =>
      rw [List.flatMap_cons,
        if_neg (by simp [hps p (List.mem_cons_self p t)]), List.nil_append]
      exact ih fun q hq => hps q (List.mem_cons_of_mem p hq)
  have hcand : allCandidates m fs filePath file = [] := by
    rcases hp with hp | hp
    · unfold allCandidates
      rw [hp]
      rfl
    · exact hgen m.patterns hp
  refine ⟨?_, rfl, rfl, rfl, rfl, rfl, rfl⟩
  apply MatchFile_eq_none m fs filePath file hf
  rw [hcand]
  rfl

/-- Witness for C4 at a concrete empty-pattern matcher. -/
theorem C4_no_match_terminal_witness :
    MatchFile ⟨[], 95.0⟩
        (fun p => if p = "a.go" then some ⟨[], false, []⟩ else none) "a.go" =
      some (noMatchResult "a.go") :=
  (C4_no_match_terminal ⟨[], 95.0⟩
    (fun p => if p = "a.go" then some ⟨[], false, []⟩ else none) "a.go"
    ⟨[], false, []⟩ (by simp) (Or.inl rfl)).1

/-- C5: every single comparison's raw score lies in [0, 100] — for
every candidate, reference and file system, including the
unparseable-reference fallback and scores driven negative before the
cosine multiplication. -/
theorem C5_raw_score_in_range :
    ∀ (fs : FS) (file : GoFile) (referencePath filePath : String),
      0 ≤ (scoreAgainstReference fs file referencePath filePath).1 ∧
      (scoreAgainstReference fs file referencePath filePath).1 ≤ 100 :=
  fun fs file referencePath filePath =>
    ⟨scoreAgainstReference_nonneg fs file referencePath filePath,
      scoreAgainstReference_le_100 fs file referencePath filePath⟩

/-- C7: the node-kind-histogram cosine similarity lies in [0, 1]; it is
0 when either magnitude is zero; it is exactly 1 on identical non-empty
histograms; it is exactly 0 on histograms with disjoint key support. -/
theorem C7_cosine_similarity_properties :
    (∀ a b : Histogram, 0 ≤ cosineSimilarity a b ∧ cosineSimilarity a b ≤ 1) ∧
    (∀ a b : Histogram, magA a b = 0 ∨ magB a b = 0 → cosineSimilarity a b = 0) ∧
    (∀ a b : Histogram, (∀ k, hval a k = hval b k) → magA a b ≠ 0 →
      cosineSimilarity a b = 1) ∧
    (∀ a b : Histogram, (∀ k, hval a k = 0 ∨ hval b k = 0) →
      cosineSimilarity a b = 0) := by
  refine ⟨fun a b => ⟨cosineSimilarity_nonneg a b, cosineSimilarity_le_one a b⟩,
    ?_, ?_, ?_⟩
  · intro a b h
    unfold cosineSimilarity
    rw [if_pos h]
  · intro a b hab hA
    have hdot : dotProduct a b = magA a b := by
      unfold dotProduct magA
      refine Finset.sum_congr rfl fun k _ => ?_
      rw [← hab k]
    have hBA : magB a b = magA a b := by
      unfold magB magA
      refine Finset.sum_congr rfl fun k _ => ?_
      rw [← hab k]
    unfold cosineSimilarity
    rw [if_neg (by push_neg; exact ⟨hA, by rw [hBA]; exact hA⟩)]
    rw [hdot, hBA, Real.mul_self_sqrt (magA_nonneg a b)]
    exact div_self hA
  · intro a b h
    have hdot : dotProduct a b = 0 := by
      refine Finset.sum_eq_zero fun k _ => ?_
      rcases h k with h0 | h0 <;> simp [h0]
    unfold cosineSimilarity
    split
    · rfl
    · rw [hdot]
      exact zero_div _

/-! ## Lemmas about the analyzer loop body -/

theorem buildPatternFor_type (files : List FileInfo)
    (goldenExamples : List GoldenExample) (antiPatternList : List AntiPattern)
    (patternType : String) (p : Pattern)
    (h : buildPatternFor files goldenExamples antiPatternList patternType = some p) :
    p.type = patternType := by
  simp only [buildPatternFor] at h
  split at h
  · exact Option.noConfusion h
  · rw [Option.some.injEq] at h
    rw [← h]
    rfl

theorem buildPatternFor_none (files : List FileInfo)
    (goldenExamples : List GoldenExample) (antiPatternList : List AntiPattern)
    (patternType : String)
    (hlen : (groupOf files patternType).length < 3)
    (hgold : goldenExamples.filter (fun g => g.pattern = patternType) = []) :
    buildPatternFor files goldenExamples antiPatternList patternType = none := by
  simp only [buildPatternFor]
  rw [if_pos ⟨hlen, by rw [hgold]; rfl⟩]

theorem buildPatternFor_some (files : List FileInfo)
    (goldenExamples : List GoldenExample) (antiPatternList : List AntiPattern)
    (patternType : String)
    (hgold : goldenExamples.filter (fun g => g.pattern = patternType) ≠ []) :
    ∃ p, buildPatternFor files goldenExamples antiPatternList patternType = some p ∧
      p.type = patternType := by
  have hgate : ¬((groupOf files patternType).length < 3 ∧
      (goldenExamples.filter (fun g => g.pattern = patternType)).isEmpty) := by
    rintro ⟨_, he⟩
    exact hgold (List.isEmpty_iff.mp he)
  refine ⟨{ extractPattern patternType (groupOf files patternType) with
      annotatedGolden := goldenExamples.filter (fun g => g.pattern = patternType),
      antiPatterns := antiPatternList.filter (fun a => a.pattern = patternType),
      discovered := (groupOf files patternType).filterMap
        (fun file =>
          if (goldenExamples.filter (fun g => g.pattern = patternType)).any
              (fun golden => golden.path = file.path) then none
          else some { path := file.path, similarityScore := 0.9, weight := 1.0 }) },
    ?_, rfl⟩
  simp only [buildPatternFor]
  rw [if_neg hgate]

/-- C2: against any parseable reference, the import phase starts at 100
and subtracts exactly 5.0 per reference import absent from the
candidate, and the comparison's deviation list is exactly one
missing/warning deviation per missed import (naming it and suggesting
to add it), optionally followed by the error-handling deviation; for
reference imports {A,B,C} and candidate imports {A} the pre-cosine
score is 90.0 with exactly the two deviations for B and C. -/
theorem C2_import_recall :
    (∀ (fs : FS) (file refFile : GoFile) (referencePath filePath : String),
      fs referencePath = some refFile →
      importPhase file.imports refFile.imports =
        ((100.0 : ℝ) - 5.0 * ((missedImports file.imports refFile.imports).length : ℝ),
          (missedImports file.imports refFile.imports).map importDeviation) ∧
      (scoreAgainstReference fs file referencePath filePath).2 =
        (missedImports file.imports refFile.imports).map importDeviation ++
          (if checkErrorHandling refFile && !checkErrorHandling file then
            [errorHandlingDeviation]
          else [])) ∧
    (∀ imp : String,
      (importDeviation imp).type = "missing" ∧
      (importDeviation imp).severity = "warning" ∧
      (importDeviation imp).expected = imp ∧
      (importDeviation imp).suggestion = "Consider adding import: " ++ imp) ∧
    importPhase ["A"] ["A", "B", "C"] =
      ((90.0 : ℝ), [importDeviation "B", importDeviation "C"]) := by
  refine ⟨?_, fun imp => ⟨rfl, rfl, rfl, rfl⟩, ?_⟩
  · intro fs file refFile referencePath filePath h
    refine ⟨importPhase_eq file.imports refFile.imports, ?_⟩
    rw [scoreAgainstReference_some fs file refFile referencePath filePath h]
    rw [importPhase_eq]
  · have hm : missedImports ["A"] ["A", "B", "C"] = ["B", "C"] := by decide
    rw [importPhase_eq, hm]
    simp only [Prod.mk.injEq, List.map_cons, List.map_nil]
    exact ⟨by norm_num, trivial⟩

/-- Concrete candidate `{A}` for the C2 witness. -/
def c2cand : GoFile := ⟨["A"], false, []⟩

/-- Concrete reference `{A,B,C}` for the C2 witness. -/
def c2ref : GoFile := ⟨["A", "B", "C"], false, []⟩

/-- File system of the C2 witness. -/
def c2fs : FS := fun p => if p = "r.go" then some c2ref else none

/-- Witness for C2 at the concrete `{A}` versus `{A,B,C}` comparison. -/
theorem C2_import_recall_witness :
    importPhase c2cand.imports c2ref.imports =
      ((100.0 : ℝ) - 5.0 * ((missedImports c2cand.imports c2ref.imports).length : ℝ),
        (missedImports c2cand.imports c2ref.imports).map importDeviation) ∧
    (scoreAgainstReference c2fs c2cand "r.go" "c.go").2 =
      (missedImports c2cand.imports c2ref.imports).map importDeviation ++
        (if checkErrorHandling c2ref && !checkErrorHandling c2cand then
          [errorHandlingDeviation]
        else []) :=
  C2_import_recall.1 c2fs c2cand c2ref "r.go" "c.go" (by decide)

/-- C8: a category whose group has fewer than 3 fingerprints and no
golden example produces no pattern; as soon as a golden example exists
for a category that has at least one fingerprint, a pattern is produced
regardless of the group size. (A category with no fingerprint at all
has no entry in the grouping map, so only categories with a non-empty
group are iterated by the extraction loop.) -/
theorem C8_minimum_examples_gating :
    ∀ (files : List FileInfo) (goldens : List GoldenExample)
      (antis : List AntiPattern) (c : String),
      ((groupOf files c).length < 3 →
        goldens.filter (fun g => g.pattern = c) = [] →
        ∀ p ∈ ExtractPatternsCore files goldens antis, p.type ≠ c) ∧
      (groupOf files c ≠ [] →
        goldens.filter (fun g => g.pattern = c) ≠ [] →
        ∃ p ∈ ExtractPatternsCore files goldens antis, p.type = c) := by
  intro files goldens antis c
  constructor
  · intro hlen hgold p hp hc
    simp only [ExtractPatternsCore, List.mem_filterMap] at hp
    rcases hp with ⟨c', _, hsome⟩
    have : c' = c := by rw [← buildPatternFor_type files goldens antis c' p hsome, hc]
    subst this
    rw [buildPatternFor_none files goldens antis c' hlen hgold] at hsome
    exact Option.noConfusion hsome
  · intro hne hgold
    have hcmem : c ∈ categoriesOf files := by
      rcases List.exists_mem_of_ne_nil _ hne with ⟨f, hf⟩
      rw [groupOf, List.mem_filter] at hf
      refine List.mem_dedup.mpr (List.mem_map.mpr ⟨f, hf.1, ?_⟩)
      simpa using hf.2
    rcases buildPatternFor_some files goldens antis c hgold with ⟨p, hp, htype⟩
    exact ⟨p, List.mem_filterMap.mpr ⟨c, hcmem, hp⟩, htype⟩

/-- First discovered fingerprint of the C8 witness scenario. -/
def c8f1 : FileInfo := { path := "app/services/a.go" }

/-- Second discovered fingerprint of the C8 witness scenario. -/
def c8f2 : FileInfo := { path := "app/services/b.go" }

/-- Golden example legitimizing the 2-member service group. -/
def c8golden : GoldenExample := { path := "app/services/g.go", pattern := "service", weight := 2.0 }

/-- Witness for C8: two service fingerprints alone produce no pattern;
adding one golden example produces a service pattern. -/
theorem C8_minimum_examples_gating_witness :
    (∀ p ∈ ExtractPatternsCore [c8f1, c8f2] [] [], p.type ≠ "service") ∧
    (∃ p ∈ ExtractPatternsCore [c8f1, c8f2] [c8golden] [], p.type = "service") :=
  ⟨(C8_minimum_examples_gating [c8f1, c8f2] [] [] "service").1
      (by decide) rfl,
    (C8_minimum_examples_gating [c8f1, c8f2] [c8golden] [] "service").2
      (by decide) (by simp [c8golden])⟩

/-- C9: the code marks an import "required" when its count reaches
`int(0.8 * len(group))`, a truncated threshold; evaluated on a group of
3 fingerprints in which import "x" occurs exactly twice, the code marks
"x" required even though 2 of 3 is below 80 percent — contradicting
both the specification and the code's own `>80%` comment. -/
theorem C9_required_import_code_eval :
    "x" ∈ (extractCommonStructure
      [{ path := "a.go", imports := ["x"] }, { path := "b.go", imports := ["x"] },
        { path := "c.go" }]).required ∧
    importCount
      [{ path := "a.go", imports := ["x"] }, { path := "b.go", imports := ["x"] },
        { path := "c.go" }] "x" = 2 ∧
    ([{ path := "a.go", imports := ["x"] }, { path := "b.go", imports := ["x"] },
        ({ path := "c.go" } : FileInfo)]).length = 3 ∧
    5 * 2 < 4 * 3 := by
  decide

/-- C10: when every evaluated comparison has weighted score 0, the
running best (initialised to 0 and replaced only on strictly greater
values) is never set, and `MatchFile` returns the same terminal
no-match result as for an empty pattern set — the two situations are
indistinguishable in the returned result. -/
theorem C10_all_zero_weighted_terminal :
    ∀ (m : Matcher) (fs : FS) (filePath : String) (file : GoFile),
      fs filePath = some file →
      (∀ c ∈ allCandidates m fs filePath file, c.weightedScore = 0) →
      MatchFile m fs filePath = some (noMatchResult filePath) ∧
      MatchFile ⟨[], m.threshold⟩ fs filePath = some (noMatchResult filePath) := by
  intro m fs filePath file hf hall
  constructor
  · apply MatchFile_eq_none m fs filePath file hf
    rw [foldl_updateBest_id _ _ _ (fun c hc => by rw [hall c hc]; norm_num)]
  · apply MatchFile_eq_none ⟨[], m.threshold⟩ fs filePath file hf
    rw [show allCandidates ⟨[], m.threshold⟩ fs filePath file = [] from rfl]
    rfl

/-! ## Helper lemmas: single best-match updates and cosine values -/

theorem updateBest_pos {st : ℝ × Option PatternMatch} {cand : PatternMatch}
    (h : cand.weightedScore > st.1) :
    updateBest st cand = (cand.weightedScore, some cand) := by
  unfold updateBest
  rw [if_pos h]

theorem updateBest_neg {st : ℝ × Option PatternMatch} {cand : PatternMatch}
    (h : ¬ cand.weightedScore > st.1) :
    updateBest st cand = st := by
  unfold updateBest
  rw [if_neg h]

/-- Histograms with the same values have cosine similarity exactly 1
when non-empty. -/
theorem cosineSimilarity_eq_one_of_eqval (a b : Histogram)
    (hab : ∀ k, hval a k = hval b k) (hA : magA a b ≠ 0) :
    cosineSimilarity a b = 1 := by
  have hdot : dotProduct a b = magA a b := by
    unfold dotProduct magA
    refine Finset.sum_congr rfl fun k _ => ?_
    rw [← hab k]
  have hBA : magB a b = magA a b := by
    unfold magB magA
    refine Finset.sum_congr rfl fun k _ => ?_
    rw [← hab k]
  unfold cosineSimilarity
  rw [if_neg (by push_neg; exact ⟨hA, by rw [hBA]; exact hA⟩)]
  rw [hdot, hBA, Real.mul_self_sqrt (magA_nonneg a b)]
  exact div_self hA

/-- Histograms with disjoint key support have cosine similarity 0. -/
theorem cosineSimilarity_eq_zero_of_disjoint (a b : Histogram)
    (h : ∀ k, hval a k = 0 ∨ hval b k = 0) :
    cosineSimilarity a b = 0 := by
  have hdot : dotProduct a b = 0 := by
    refine Finset.sum_eq_zero fun k _ => ?_
    rcases h k with h0 | h0 <;> simp [h0]
  unfold cosineSimilarity
  split
  · rfl
  · rw [hdot]
    exact zero_div _

/-- Witness for C7 at concrete histograms. -/
theorem C7_cosine_similarity_properties_witness :
    (0 ≤ cosineSimilarity [("x", 1)] [("x", 1)] ∧
      cosineSimilarity [("x", 1)] [("x", 1)] ≤ 1) ∧
    cosineSimilarity [("x", 1)] [("x", 1)] = 1 ∧
    cosineSimilarity [("x", 1)] [("y", 2)] = 0 := by
  refine ⟨C7_cosine_similarity_properties.1 [("x", 1)] [("x", 1)], ?_, ?_⟩
  · refine C7_cosine_similarity_properties.2.2.1 [("x", 1)] [("x", 1)] (fun k => rfl) ?_
    have hk : keySet [("x", 1)] [("x", 1)] = {"x"} := by simp [keySet]
    have hv : hval [("x", 1)] "x" = 1 := rfl
    have h : magA [("x", 1)] [("x", 1)] = 1 := by
      rw [magA, hk, Finset.sum_singleton, hv]
      norm_num
    rw [h]
    norm_num
  · refine C7_cosine_similarity_properties.2.2.2 [("x", 1)] [("y", 2)] ?_
    intro k
    by_cases h : "x" = k
    · right
      subst h
      rfl
    · left
      have hbe : (k == "x") = false := beq_eq_false_iff_ne.mpr fun hk => h hk.symm
      simp [hval, List.lookup, hbe]

/-- Candidate of the C10 witness. -/
def c10file : GoFile := ⟨[], false, []⟩

/-- Pattern of the C10 witness: one golden reference of weight 0. -/
def c10pattern : Pattern := { annotatedGolden := [{ path := "gone.go", weight := 0 }] }

/-- File system of the C10 witness. -/
def c10fs : FS := fun p => if p = "c.go" then some c10file else none

/-- Matcher of the C10 witness. -/
def c10m : Matcher := ⟨[c10pattern], 95.0⟩

/-- Witness for C10: one evaluated comparison with weighted score 0
yields the same terminal result as the empty pattern set. -/
theorem C10_all_zero_weighted_terminal_witness :
    MatchFile c10m c10fs "c.go" = some (noMatchResult "c.go") ∧
    MatchFile ⟨[], c10m.threshold⟩ c10fs "c.go" = some (noMatchResult "c.go") := by
  refine C10_all_zero_weighted_terminal c10m c10fs "c.go" c10file (by decide) ?_
  intro c hc
  have hlist : allCandidates c10m c10fs "c.go" c10file =
      [mkGoldenMatch c10fs c10file "c.go" c10m.threshold c10pattern
        { path := "gone.go", weight := 0 }] := rfl
  rw [hlist, List.mem_singleton] at hc
  subst hc
  exact mul_zero _

/-- C6: best-match selection is a global arg-max over all evaluated
comparisons replacing only on strictly greater weighted score, so the
winner is the earliest comparison attaining the maximum (every earlier
comparison is strictly below it, every later one at most equal); in
particular, with a golden and a discovered reference that share the
same path (hence equal raw scores) and golden weight at least the
discovered weight, the discovered tier never wins. -/
theorem C6_first_writer_argmax :
    (∀ (m : Matcher) (fs : FS) (filePath : String) (file : GoFile)
        (res : PatternMatch),
      fs filePath = some file →
      MatchFile m fs filePath = some res →
      res.matchType ≠ "no_match" →
      ∃ l₁ l₂, allCandidates m fs filePath file = l₁ ++ res :: l₂ ∧
        (∀ c ∈ l₁, c.weightedScore < res.weightedScore) ∧
        (∀ c ∈ l₂, c.weightedScore ≤ res.weightedScore) ∧
        0 < res.weightedScore) ∧
    (∀ (t : ℝ) (fs : FS) (filePath : String) (file : GoFile) (p : Pattern)
        (g : GoldenExample) (d : Example) (res : PatternMatch),
      fs filePath = some file →
      p.annotatedGolden = [g] → p.configBlessed = [] → p.discovered = [d] →
      g.path = d.path → d.weight ≤ g.weight → 0 ≤ d.weight →
      MatchFile ⟨[p], t⟩ fs filePath = some res →
      res.matchType ≠ "discovered") := by
  constructor
  · intro m fs filePath file res hf hm hnm
    rcases MatchFile_inv m fs filePath file res hf hm with ⟨hres, _⟩ | hfin
    · exact absurd (by rw [hres]; rfl) hnm
    · rcases foldl_updateBest_spec (allCandidates m fs filePath file) 0.0 none with
        ⟨heq, _⟩ | ⟨l₁, r, l₂, hdec, heq, hlt, h₁, h₂⟩
      · rw [heq] at hfin
        exact absurd hfin (by simp)
      · rw [heq] at hfin
        have hr : r = res := by simpa using hfin
        subst hr
        exact ⟨l₁, l₂, hdec, h₁, h₂, by linarith⟩
  · intro t fs filePath file p g d res hf hg hb hd hpath hw hw0 hm
    by_cases hs : shouldTryPattern filePath p
    · have hcand : allCandidates ⟨[p], t⟩ fs filePath file =
          [mkGoldenMatch fs file filePath t p g,
            mkDiscoveredMatch fs file filePath t p d] := by
        simp only [allCandidates, List.flatMap_cons, List.flatMap_nil,
          List.append_nil, if_pos hs, tierCandidates, hg, hb, hd]
        simp
      have hscore : scoreAgainstReference fs file d.path filePath =
          scoreAgainstReference fs file g.path filePath := by rw [hpath]
      have hs0 : 0 ≤ (scoreAgainstReference fs file g.path filePath).1 :=
        scoreAgainstReference_nonneg fs file g.path filePath
      have hdw : (mkDiscoveredMatch fs file filePath t p d).weightedScore =
          (scoreAgainstReference fs file g.path filePath).1 * d.weight := by
        unfold mkDiscoveredMatch
        rw [hscore]
      have hle : (mkDiscoveredMatch fs file filePath t p d).weightedScore ≤
          (mkGoldenMatch fs file filePath t p g).weightedScore := by
        rw [hdw]
        exact mul_le_mul_of_nonneg_left hw hs0
      by_cases hpos :
        (mkGoldenMatch fs file filePath t p g).weightedScore > (0.0 : ℝ)
      · have hfold : (allCandidates ⟨[p], t⟩ fs filePath file).foldl updateBest
            ((0.0 : ℝ), (none : Option PatternMatch)) =
            ((mkGoldenMatch fs file filePath t p g).weightedScore,
              some (mkGoldenMatch fs file filePath t p g)) := by
          rw [hcand, List.foldl_cons, updateBest_pos hpos, List.foldl_cons,
            updateBest_neg (not_lt.mpr hle), List.foldl_nil]
        have := MatchFile_eq_some ⟨[p], t⟩ fs filePath file
          (mkGoldenMatch fs file filePath t p g) hf (by rw [hfold])
        rw [this] at hm
        have hres : mkGoldenMatch fs file filePath t p g = res := by simpa using hm
        rw [← hres]
        simp [mkGoldenMatch]
      · have hfold : (allCandidates ⟨[p], t⟩ fs filePath file).foldl updateBest
            ((0.0 : ℝ), (none : Option PatternMatch)) =
            ((0.0 : ℝ), (none : Option PatternMatch)) := by
          refine foldl_updateBest_id _ _ _ fun c hc => ?_
          rw [hcand] at hc
          rcases List.mem_cons.mp hc with hc | hc
          · rw [hc]
            exact not_lt.mp hpos
          · rw [List.mem_singleton.mp hc]
            exact le_trans hle (not_lt.mp hpos)
        have := MatchFile_eq_none ⟨[p], t⟩ fs filePath file hf (by rw [hfold])
        rw [this] at hm
        have hres : noMatchResult filePath = res := by simpa using hm
        rw [← hres]
        simp [noMatchResult]
    · have hcand : allCandidates ⟨[p], t⟩ fs filePath file = [] := by
        simp [allCandidates, hs]
      have := MatchFile_eq_none ⟨[p], t⟩ fs filePath file hf (by rw [hcand]; rfl)
      rw [this] at hm
      have hres : noMatchResult filePath = res := by simpa using hm
      rw [← hres]
      simp [noMatchResult]

/-- Candidate of the C6 witness. -/
def c6file : GoFile := ⟨[], false, []⟩

/-- Golden reference of the C6 witness (weight 2.0). -/
def c6g : GoldenExample := { path := "gone.go", weight := 2.0 }

/-- Discovered reference of the C6 witness (same path, weight 1.0). -/
def c6d : Example := { path := "gone.go", similarityScore := 0, weight := 1.0 }

/-- Pattern of the C6 witness. -/
def c6p : Pattern := { annotatedGolden := [c6g], discovered := [c6d] }

/-- File system of the C6 witness. -/
def c6fs : FS := fun p => if p = "c.go" then some c6file else none

/-- The winning comparison of the C6 witness: the golden reference. -/
noncomputable def c6res : PatternMatch :=
  mkGoldenMatch c6fs c6file "c.go" 95.0 c6p c6g

/-- Witness for C6 at the concrete two-tier scenario. -/
theorem C6_first_writer_argmax_witness :
    (∃ l₁ l₂,
      allCandidates ⟨[c6p], (95.0 : ℝ)⟩ c6fs "c.go" c6file = l₁ ++ c6res :: l₂ ∧
      (∀ c ∈ l₁, c.weightedScore < c6res.weightedScore) ∧
      (∀ c ∈ l₂, c.weightedScore ≤ c6res.weightedScore) ∧
      0 < c6res.weightedScore) ∧
    c6res.matchType ≠ "discovered" := by
  have hs50 : scoreAgainstReference c6fs c6file "gone.go" "c.go" =
      ((50.0 : ℝ), []) := rfl
  have hgw : c6res.weightedScore = 100 := by
    show (scoreAgainstReference c6fs c6file "gone.go" "c.go").1 * (2.0 : ℝ) = 100
    rw [hs50]
    norm_num
  have hdw : (mkDiscoveredMatch c6fs c6file "c.go" 95.0 c6p c6d).weightedScore = 50 := by
    show (scoreAgainstReference c6fs c6file "gone.go" "c.go").1 * (1.0 : ℝ) = 50
    rw [hs50]
    norm_num
  have hca : allCandidates ⟨[c6p], (95.0 : ℝ)⟩ c6fs "c.go" c6file =
      [c6res, mkDiscoveredMatch c6fs c6file "c.go" 95.0 c6p c6d] := rfl
  have hMF : MatchFile ⟨[c6p], (95.0 : ℝ)⟩ c6fs "c.go" = some c6res := by
    apply MatchFile_eq_some ⟨[c6p], (95.0 : ℝ)⟩ c6fs "c.go" c6file c6res rfl
    rw [hca, List.foldl_cons,
      updateBest_pos (by rw [hgw]; show (100 : ℝ) > 0.0; norm_num),
      List.foldl_cons,
      updateBest_neg (by
        show ¬ (mkDiscoveredMatch c6fs c6file "c.go" 95.0 c6p c6d).weightedScore >
          c6res.weightedScore
        rw [hdw, hgw]
        norm_num),
      List.foldl_nil]
  exact ⟨C6_first_writer_argmax.1 ⟨[c6p], (95.0 : ℝ)⟩ c6fs "c.go" c6file c6res rfl
      hMF (by decide),
    C6_first_writer_argmax.2 95.0 c6fs "c.go" c6file c6p c6g c6d c6res rfl rfl rfl
      rfl rfl (by norm_num [c6d, c6g]) (by norm_num [c6d]) hMF⟩

/-- Candidate of the C1 scenario: imports {A}, histogram x:3 y:4. -/
def c1Cand : GoFile :=
  { imports := ["A"], hasNilCheck := false, histogram := [("x", 3), ("y", 4)] }

/-- Golden reference file of the C1 scenario: four extra imports,
identical histogram (cosine 1), so raw score 80. -/
def c1Golden : GoFile :=
  { imports := ["A", "W", "X", "Y", "Z"], hasNilCheck := false,
    histogram := [("x", 3), ("y", 4)] }

/-- Discovered reference file of the C1 scenario: no imports, histogram
x:4 y:3 (cosine 24/25 against the candidate), so raw score 96. -/
def c1Disc : GoFile :=
  { imports := [], hasNilCheck := false, histogram := [("x", 4), ("y", 3)] }

/-- File system of the C1 scenario. -/
def c1FS : FS := fun p =>
  if p = "cand.go" then some c1Cand
  else if p = "golden.go" then some c1Golden
  else if p = "disc.go" then some c1Disc
  else none

/-- Golden-tier reference of the C1 scenario (weight 2.0). -/
def c1GoldenRef : GoldenExample := { path := "golden.go", weight := 2.0 }

/-- Discovered-tier reference of the C1 scenario (weight 1.0). -/
def c1DiscRef : Example := { path := "disc.go", similarityScore := 0, weight := 1.0 }

/-- Pattern of the C1 scenario. -/
def c1Pattern : Pattern :=
  { annotatedGolden := [c1GoldenRef], discovered := [c1DiscRef] }

/-- Matcher of the C1 scenario (default threshold 95.0). -/
def c1Matcher : Matcher := { patterns := [c1Pattern], threshold := 95.0 }

/-- The golden comparison of the C1 scenario. -/
noncomputable def c1GoldenMatch : PatternMatch :=
  mkGoldenMatch c1FS c1Cand "cand.go" 95.0 c1Pattern c1GoldenRef

/-- The discovered comparison of the C1 scenario. -/
noncomputable def c1DiscMatch : PatternMatch :=
  mkDiscoveredMatch c1FS c1Cand "cand.go" 95.0 c1Pattern c1DiscRef

theorem c1_golden_score :
    (scoreAgainstReference c1FS c1Cand "golden.go" "cand.go").1 = 80 := by
  have hk : keySet [("x", 3), ("y", 4)] [("x", 3), ("y", 4)] = {"x", "y"} := by
    simp [keySet]
  have hmag : magA [("x", 3), ("y", 4)] [("x", 3), ("y", 4)] = 25 := by
    rw [magA, hk, show ({"x", "y"} : Finset String) = insert "x" {"y"} from rfl,
      Finset.sum_insert (by decide), Finset.sum_singleton,
      show hval [("x", 3), ("y", 4)] "x" = 3 from rfl,
      show hval [("x", 3), ("y", 4)] "y" = 4 from rfl]
    norm_num
  have hcos : cosineSimilarity [("x", 3), ("y", 4)] [("x", 3), ("y", 4)] = 1 :=
    cosineSimilarity_eq_one_of_eqval _ _ (fun k => rfl) (by rw [hmag]; norm_num)
  have hcs : compareStructure c1FS "cand.go" "golden.go" = 1 := hcos
  rw [scoreAgainstReference_some c1FS c1Cand c1Golden "golden.go" "cand.go" rfl]
  dsimp only
  rw [if_neg (by decide), importPhase_eq]
  dsimp only
  rw [show missedImports c1Cand.imports c1Golden.imports = ["W", "X", "Y", "Z"] from
    by decide, hcs, mul_one]
  rw [show ((100.0 : ℝ) - 5.0 * ((["W", "X", "Y", "Z"] : List String).length : ℝ)) = 80 from
    by norm_num]
  exact max_eq_right (by norm_num)

theorem c1_disc_score :
    (scoreAgainstReference c1FS c1Cand "disc.go" "cand.go").1 = 96 := by
  have hk : keySet [("x", 3), ("y", 4)] [("x", 4), ("y", 3)] = {"x", "y"} := by
    simp [keySet]
  have hins : ({"x", "y"} : Finset String) = insert "x" {"y"} := rfl
  have hnm : ("x" : String) ∉ ({"y"} : Finset String) := by decide
  have hmagA : magA [("x", 3), ("y", 4)] [("x", 4), ("y", 3)] = 25 := by
    rw [magA, hk, hins, Finset.sum_insert hnm, Finset.sum_singleton,
      show hval [("x", 3), ("y", 4)] "x" = 3 from rfl,
      show hval [("x", 3), ("y", 4)] "y" = 4 from rfl]
    norm_num
  have hmagB : magB [("x", 3), ("y", 4)] [("x", 4), ("y", 3)] = 25 := by
    rw [magB, hk, hins, Finset.sum_insert hnm, Finset.sum_singleton,
      show hval [("x", 4), ("y", 3)] "x" = 4 from rfl,
      show hval [("x", 4), ("y", 3)] "y" = 3 from rfl]
    norm_num
  have hdot : dotProduct [("x", 3), ("y", 4)] [("x", 4), ("y", 3)] = 24 := by
    rw [dotProduct, hk, hins, Finset.sum_insert hnm, Finset.sum_singleton,
      show hval [("x", 3), ("y", 4)] "x" = 3 from rfl,
      show hval [("x", 3), ("y", 4)] "y" = 4 from rfl,
      show hval [("x", 4), ("y", 3)] "x" = 4 from rfl,
      show hval [("x", 4), ("y", 3)] "y" = 3 from rfl]
    norm_num
  have hsqrt : Real.sqrt 25 = 5 := by
    rw [show (25 : ℝ) = 5 ^ 2 from by norm_num]
    exact Real.sqrt_sq (by norm_num)
  have hcos : cosineSimilarity [("x", 3), ("y", 4)] [("x", 4), ("y", 3)] = 24 / 25 := by
    unfold cosineSimilarity
    rw [if_neg (by rw [hmagA, hmagB]; norm_num)]
    rw [hdot, hmagA, hmagB, hsqrt]
    norm_num
  have hcs : compareStructure c1FS "cand.go" "disc.go" = 24 / 25 := hcos
  rw [scoreAgainstReference_some c1FS c1Cand c1Disc "disc.go" "cand.go" rfl]
  dsimp only
  rw [if_neg (by decide), importPhase_eq]
  dsimp only
  rw [show missedImports c1Cand.imports c1Disc.imports = [] from rfl, hcs]
  rw [show ((100.0 : ℝ) - 5.0 * (([] : List String).length : ℝ)) * (24 / 25) = 96 from
    by norm_num]
  exact max_eq_right (by norm_num)

/-- C1: whenever `MatchFile` returns a real (non-terminal) match, its
`AutoApprove` flag equals `raw score of the winning comparison ≥
threshold` — the tier weight enters only the arg-max, never the
approve/reject decision; in particular, in the scenario where a
golden reference (raw 80, weight 2.0, weighted 160) beats a discovered
reference (raw 96, weight 1.0, weighted 96), the golden comparison
wins with raw score 80 and `AutoApprove` is false under threshold
95.0. -/
theorem C1_autoApprove_uses_raw_score :
    (∀ (m : Matcher) (fs : FS) (filePath : String) (res : PatternMatch),
      MatchFile m fs filePath = some res → res.matchType ≠ "no_match" →
      res.autoApprove = decide (m.threshold ≤ res.score)) ∧
    (MatchFile c1Matcher c1FS "cand.go" = some c1GoldenMatch ∧
      c1GoldenMatch.score = 80 ∧
      c1GoldenMatch.weightedScore = 160 ∧
      c1DiscMatch.score = 96 ∧
      c1DiscMatch.weightedScore = 96 ∧
      c1GoldenMatch.matchType = "annotated_golden" ∧
      c1GoldenMatch.autoApprove = false ∧
      c1Matcher.threshold = 95.0) := by
  constructor
  · intro m fs filePath res hm hnm
    cases hf : fs filePath with
    | none =>
      exfalso
      unfold MatchFile at hm
      rw [hf] at hm
      exact Option.noConfusion hm
    | some file =>
      rcases MatchFile_inv m fs filePath file res hf hm with ⟨hres, _⟩ | hfin
      · exact absurd (by rw [hres]; rfl) hnm
      · exact allCandidates_autoApprove (foldl_updateBest_mem _ _ hfin).1
  · have hgsc : c1GoldenMatch.score = 80 := c1_golden_score
    have hgw : c1GoldenMatch.weightedScore = 160 := by
      show (scoreAgainstReference c1FS c1Cand "golden.go" "cand.go").1 * (2.0 : ℝ) = 160
      rw [c1_golden_score]
      norm_num
    have hdsc : c1DiscMatch.score = 96 := c1_disc_score
    have hdw : c1DiscMatch.weightedScore = 96 := by
      show (scoreAgainstReference c1FS c1Cand "disc.go" "cand.go").1 * (1.0 : ℝ) = 96
      rw [c1_disc_score]
      norm_num
    have hauto : c1GoldenMatch.autoApprove = false := by
      show decide ((95.0 : ℝ) ≤
        (scoreAgainstReference c1FS c1Cand "golden.go" "cand.go").1) = false
      rw [c1_golden_score]
      exact decide_eq_false (by norm_num)
    have hca : allCandidates c1Matcher c1FS "cand.go" c1Cand =
        [c1GoldenMatch, c1DiscMatch] := rfl
    have hMF : MatchFile c1Matcher c1FS "cand.go" = some c1GoldenMatch := by
      apply MatchFile_eq_some c1Matcher c1FS "cand.go" c1Cand c1GoldenMatch rfl
      rw [hca, List.foldl_cons,
        updateBest_pos (by rw [hgw]; show (160 : ℝ) > 0.0; norm_num),
        List.foldl_cons,
        updateBest_neg (by
          show ¬ c1DiscMatch.weightedScore > c1GoldenMatch.weightedScore
          rw [hdw, hgw]
          norm_num),
        List.foldl_nil]
    exact ⟨hMF, hgsc, hgw, hdsc, hdw, rfl, hauto, rfl⟩

/-- Witness for C1: the general auto-approve law applied to the
concrete winning comparison of the scenario. -/
theorem C1_autoApprove_uses_raw_score_witness :
    c1GoldenMatch.autoApprove =
      decide (c1Matcher.threshold ≤ c1GoldenMatch.score) :=
  C1_autoApprove_uses_raw_score.1 c1Matcher c1FS "cand.go" c1GoldenMatch
    C1_autoApprove_uses_raw_score.2.1 (by decide)
